import Mathlib

/-!
# The mock backend and mock stack of `pkg/backend/mock.go`

`MockBackend` and `MockStack` are test doubles: a struct of optional hook
functions, and one method per hook that calls the hook when it is set and
panics with `"not implemented"` when it is not.

## Embedding

* A Go call either returns or panics: `Outcome`.
* Hooks are Go closures, so they may read and write program state.  A call is
  a state transformer `Go σ α`, from the state before the call to the outcome
  and the state after it.  Hooks are taken to terminate (return or panic).
* The receivers are pointers (`be *MockBackend`, `ms *MockStack`).  A pointer
  is modelled by what reading it yields in a given state (`Ptr`), so a hook
  that assigns a field of the mock it sits in is expressible.
* A nil func field is `none`.
* The types that `mock.go` imports or that are declared in other files of the
  package are parameters (`Types`).
-/

namespace PulumiBackend

/-- Types used by `mock.go` and declared outside it. -/
structure Types where
  /-- Go `context.Context`. -/
  Context : Type
  /-- Go `diag.Sink`. -/
  Sink : Type
  /-- Go `PolicyPack` (interface value). -/
  PolicyPack : Type
  /-- Go `StackReference` (interface value). -/
  StackReference : Type
  /-- Go `Stack` (interface value). -/
  Stack : Type
  /-- Go `Backend` (interface value). -/
  Backend : Type
  /-- Go `interface{}`, the options of `CreateStack`. -/
  Any : Type
  /-- Go `ListStacksFilter`. -/
  ListStacksFilter : Type
  /-- Go `StackSummary` (interface value). -/
  StackSummary : Type
  /-- Go `tokens.QName`. -/
  QName : Type
  /-- Go `config.Crypter` (interface value). -/
  Crypter : Type
  /-- Go `UpdateOperation`. -/
  UpdateOperation : Type
  /-- Go `result.Result`. -/
  Result : Type
  /-- Go `config.Map`. -/
  ConfigMap : Type
  /-- Go `UpdateInfo`. -/
  UpdateInfo : Type
  /-- Go `map[apitype.StackTagName]string`. -/
  StackTags : Type
  /-- Go `*apitype.UntypedDeployment`. -/
  UntypedDeployment : Type
  /-- Go `engine.ResourceChanges`. -/
  ResourceChanges : Type
  /-- Go `StackConfiguration`. -/
  StackConfiguration : Type
  /-- Go `operations.LogQuery`. -/
  LogQuery : Type
  /-- Go `operations.LogEntry`. -/
  LogEntry : Type
  /-- Go `*deploy.Snapshot`. -/
  Snapshot : Type
  /-- The non-nil values of Go `error`. -/
  Err : Type

/-- Go `error`: `none` is `nil`. -/
abbrev GoError (T : Types) : Type := Option T.Err

/-- How a Go call ends: it returns its values, or it panics with a message. -/
inductive Outcome (α : Type) where
  | ret (v : α)
  | panic (msg : String)
deriving DecidableEq

/-- A Go call in program states `σ`: the outcome and the state after it. -/
abbrev Go (σ α : Type) : Type := σ → Outcome α × σ

/-- A Go pointer to an `α`, given by the value read through it in each state. -/
abbrev Ptr (σ α : Type) : Type := σ → α

/-- The statement `panic("not implemented")`: it panics and changes nothing. -/
def notImplemented {σ α : Type} : Go σ α :=
  fun w => (Outcome.panic "not implemented", w)

/-- The outcome is a return, not a panic. -/
def Outcome.returns {α : Type} : Outcome α → Bool
  | Outcome.ret _ => true
  | Outcome.panic _ => false

/-- Go `type MockBackend struct`, the fields in the order of the source. -/
structure MockBackend (T : Types) (σ : Type) where
  NameF : Option (Go σ String) := none
  URLF : Option (Go σ String) := none
  GetPolicyPackF :
    Option (T.Context → String → T.Sink → Go σ (T.PolicyPack × GoError T)) := none
  SupportsOrganizationsF : Option (Go σ Bool) := none
  ParseStackReferenceF : Option (String → Go σ (T.StackReference × GoError T)) := none
  DoesProjectExistF : Option (T.Context → String → Go σ (Bool × GoError T)) := none
  GetStackF : Option (T.Context → T.StackReference → Go σ (T.Stack × GoError T)) := none
  CreateStackF :
    Option (T.Context → T.StackReference → T.Any → Go σ (T.Stack × GoError T)) := none
  RemoveStackF :
    Option (T.Context → T.StackReference → Bool → Go σ (Bool × GoError T)) := none
  ListStacksF :
    Option (T.Context → T.ListStacksFilter → Go σ (List T.StackSummary × GoError T)) := none
  RenameStackF : Option (T.Context → T.StackReference → T.QName → Go σ (GoError T)) := none
  GetStackCrypterF : Option (T.StackReference → Go σ (T.Crypter × GoError T)) := none
  QueryF :
    Option (T.Context → T.StackReference → T.UpdateOperation → Go σ T.Result) := none
  GetLatestConfigurationF :
    Option (T.Context → T.StackReference → Go σ (T.ConfigMap × GoError T)) := none
  GetHistoryF :
    Option (T.Context → T.StackReference → Go σ (List T.UpdateInfo × GoError T)) := none
  GetStackTagsF :
    Option (T.Context → T.StackReference → Go σ (T.StackTags × GoError T)) := none
  UpdateStackTagsF :
    Option (T.Context → T.StackReference → T.StackTags → Go σ (GoError T)) := none
  ExportDeploymentF :
    Option (T.Context → T.StackReference → Go σ (T.UntypedDeployment × GoError T)) := none
  ImportDeploymentF :
    Option (T.Context → T.StackReference → T.UntypedDeployment → Go σ (GoError T)) := none
  LogoutF : Option (Go σ (GoError T)) := none
  CurrentUserF : Option (Go σ (String × GoError T)) := none
  PreviewF :
    Option (T.Context → T.StackReference → T.UpdateOperation →
      Go σ (T.ResourceChanges × T.Result)) := none
  UpdateF :
    Option (T.Context → T.StackReference → T.UpdateOperation →
      Go σ (T.ResourceChanges × T.Result)) := none
  RefreshF :
    Option (T.Context → T.StackReference → T.UpdateOperation →
      Go σ (T.ResourceChanges × T.Result)) := none
  DestroyF :
    Option (T.Context → T.StackReference → T.UpdateOperation →
      Go σ (T.ResourceChanges × T.Result)) := none
  WatchF :
    Option (T.Context → T.StackReference → T.UpdateOperation → Go σ T.Result) := none
  GetLogsF :
    Option (T.Context → T.StackReference → T.StackConfiguration → T.LogQuery →
      Go σ (List T.LogEntry × GoError T)) := none

/-- Go `type MockStack struct`, the fields in the order of the source. -/
structure MockStack (T : Types) (σ : Type) where
  RefF : Option (Go σ T.StackReference) := none
  ConfigF : Option (Go σ T.ConfigMap) := none
  SnapshotF : Option (T.Context → Go σ (T.Snapshot × GoError T)) := none
  BackendF : Option (Go σ T.Backend) := none
  PreviewF :
    Option (T.Context → T.UpdateOperation → Go σ (T.ResourceChanges × T.Result)) := none
  UpdateF :
    Option (T.Context → T.UpdateOperation → Go σ (T.ResourceChanges × T.Result)) := none
  RefreshF :
    Option (T.Context → T.UpdateOperation → Go σ (T.ResourceChanges × T.Result)) := none
  DestroyF :
    Option (T.Context → T.UpdateOperation → Go σ (T.ResourceChanges × T.Result)) := none
  WatchF : Option (T.Context → T.UpdateOperation → Go σ T.Result) := none
  QueryF : Option (T.Context → T.UpdateOperation → Go σ T.Result) := none
  RemoveF : Option (T.Context → Bool → Go σ (Bool × GoError T)) := none
  RenameF : Option (T.Context → T.QName → Go σ (GoError T)) := none
  GetLogsF :
    Option (T.Context → T.StackConfiguration → T.LogQuery →
      Go σ (List T.LogEntry × GoError T)) := none
  ExportDeploymentF : Option (T.Context → Go σ (T.UntypedDeployment × GoError T)) := none
  ImportDeploymentF : Option (T.Context → T.UntypedDeployment → Go σ (GoError T)) := none

/-! ## The methods of `MockBackend` -/

/-- Go `func (be *MockBackend) Name`. -/
def MockBackend.Name {T : Types} {σ : Type} (be : Ptr σ (MockBackend T σ)) : Go σ String :=
  fun w =>
    match (be w).NameF with
    | some f => f w
    | none => notImplemented w

/-- Go `func (be *MockBackend) URL`. -/
def MockBackend.URL {T : Types} {σ : Type} (be : Ptr σ (MockBackend T σ)) : Go σ String :=
  fun w =>
    match (be w).URLF with
    | some f => f w
    | none => notImplemented w

/-- Go `func (be *MockBackend) GetPolicyPack`. -/
def MockBackend.GetPolicyPack {T : Types} {σ : Type} (be : Ptr σ (MockBackend T σ))
    (ctx : T.Context) (policyPack : String) (d : T.Sink) :
    Go σ (T.PolicyPack × GoError T) :=
  fun w =>
    match (be w).GetPolicyPackF with
    | some f => f ctx policyPack d w
    | none => notImplemented w

/-- Go `func (be *MockBackend) SupportsOrganizations`. -/
def MockBackend.SupportsOrganizations {T : Types} {σ : Type} (be : Ptr σ (MockBackend T σ)) :
    Go σ Bool :=
  fun w =>
    match (be w).SupportsOrganizationsF with
    | some f => f w
    | none => notImplemented w

/-- Go `func (be *MockBackend) ParseStackReference`. -/
def MockBackend.ParseStackReference {T : Types} {σ : Type} (be : Ptr σ (MockBackend T σ))
    (s : String) :
    Go σ (T.StackReference × GoError T) :=
  fun w =>
    match (be w).ParseStackReferenceF with
    | some f => f s w
    | none => notImplemented w

/-- Go `func (be *MockBackend) DoesProjectExist`. -/
def MockBackend.DoesProjectExist {T : Types} {σ : Type} (be : Ptr σ (MockBackend T σ))
    (ctx : T.Context) (projectName : String) :
    Go σ (Bool × GoError T) :=
  fun w =>
    match (be w).DoesProjectExistF with
    | some f => f ctx projectName w
    | none => notImplemented w

/-- Go `func (be *MockBackend) GetStack`. -/
def MockBackend.GetStack {T : Types} {σ : Type} (be : Ptr σ (MockBackend T σ))
    (ctx : T.Context) (stackRef : T.StackReference) :
    Go σ (T.Stack × GoError T) :=
  fun w =>
    match (be w).GetStackF with
    | some f => f ctx stackRef w
    | none => notImplemented w

/-- Go `func (be *MockBackend) CreateStack`. -/
def MockBackend.CreateStack {T : Types} {σ : Type} (be : Ptr σ (MockBackend T σ))
    (ctx : T.Context) (stackRef : T.StackReference) (opts : T.Any) :
    Go σ (T.Stack × GoError T) :=
  fun w =>
    match (be w).CreateStackF with
    | some f => f ctx stackRef opts w
    | none => notImplemented w

/-- Go `func (be *MockBackend) RemoveStack`. -/
def MockBackend.RemoveStack {T : Types} {σ : Type} (be : Ptr σ (MockBackend T σ))
    (ctx : T.Context) (stackRef : T.StackReference) (force : Bool) :
    Go σ (Bool × GoError T) :=
  fun w =>
    match (be w).RemoveStackF with
    | some f => f ctx stackRef force w
    | none => notImplemented w

/-- Go `func (be *MockBackend) ListStacks`. -/
def MockBackend.ListStacks {T : Types} {σ : Type} (be : Ptr σ (MockBackend T σ))
    (ctx : T.Context) (filter : T.ListStacksFilter) :
    Go σ (List T.StackSummary × GoError T) :=
  fun w =>
    match (be w).ListStacksF with
    | some f => f ctx filter w
    | none => notImplemented w

/-- Go `func (be *MockBackend) RenameStack`. -/
def MockBackend.RenameStack {T : Types} {σ : Type} (be : Ptr σ (MockBackend T σ))
    (ctx : T.Context) (stackRef : T.StackReference) (newName : T.QName) :
    Go σ (GoError T) :=
  fun w =>
    match (be w).RenameStackF with
    | some f => f ctx stackRef newName w
    | none => notImplemented w

/-- Go `func (be *MockBackend) GetStackCrypter`. -/
def MockBackend.GetStackCrypter {T : Types} {σ : Type} (be : Ptr σ (MockBackend T σ))
    (stackRef : T.StackReference) :
    Go σ (T.Crypter × GoError T) :=
  fun w =>
    match (be w).GetStackCrypterF with
    | some f => f stackRef w
    | none => notImplemented w

/-- Go `func (be *MockBackend) Preview`. -/
def MockBackend.Preview {T : Types} {σ : Type} (be : Ptr σ (MockBackend T σ))
    (ctx : T.Context) (stackRef : T.StackReference) (op : T.UpdateOperation) :
    Go σ (T.ResourceChanges × T.Result) :=
  fun w =>
    match (be w).PreviewF with
    | some f => f ctx stackRef op w
    | none => notImplemented w

/-- Go `func (be *MockBackend) Update`. -/
def MockBackend.Update {T : Types} {σ : Type} (be : Ptr σ (MockBackend T σ))
    (ctx : T.Context) (stackRef : T.StackReference) (op : T.UpdateOperation) :
    Go σ (T.ResourceChanges × T.Result) :=
  fun w =>
    match (be w).UpdateF with
    | some f => f ctx stackRef op w
    | none => notImplemented w

/-- Go `func (be *MockBackend) Refresh`. -/
def MockBackend.Refresh {T : Types} {σ : Type} (be : Ptr σ (MockBackend T σ))
    (ctx : T.Context) (stackRef : T.StackReference) (op : T.UpdateOperation) :
    Go σ (T.ResourceChanges × T.Result) :=
  fun w =>
    match (be w).RefreshF with
    | some f => f ctx stackRef op w
    | none => notImplemented w

/-- Go `func (be *MockBackend) Destroy`. -/
def MockBackend.Destroy {T : Types} {σ : Type} (be : Ptr σ (MockBackend T σ))
    (ctx : T.Context) (stackRef : T.StackReference) (op : T.UpdateOperation) :
    Go σ (T.ResourceChanges × T.Result) :=
  fun w =>
    match (be w).DestroyF with
    | some f => f ctx stackRef op w
    | none => notImplemented w

/-- Go `func (be *MockBackend) Watch`. -/
def MockBackend.Watch {T : Types} {σ : Type} (be : Ptr σ (MockBackend T σ))
    (ctx : T.Context) (stackRef : T.StackReference) (op : T.UpdateOperation) :
    Go σ T.Result :=
  fun w =>
    match (be w).WatchF with
    | some f => f ctx stackRef op w
    | none => notImplemented w

/-- Go `func (be *MockBackend) Query`. -/
def MockBackend.Query {T : Types} {σ : Type} (be : Ptr σ (MockBackend T σ))
    (ctx : T.Context) (stackRef : T.StackReference) (op : T.UpdateOperation) :
    Go σ T.Result :=
  fun w =>
    match (be w).QueryF with
    | some f => f ctx stackRef op w
    | none => notImplemented w

/-- Go `func (be *MockBackend) GetHistory`. -/
def MockBackend.GetHistory {T : Types} {σ : Type} (be : Ptr σ (MockBackend T σ))
    (ctx : T.Context) (stackRef : T.StackReference) :
    Go σ (List T.UpdateInfo × GoError T) :=
  fun w =>
    match (be w).GetHistoryF with
    | some f => f ctx stackRef w
    | none => notImplemented w

/-- Go `func (be *MockBackend) GetLogs`. -/
def MockBackend.GetLogs {T : Types} {σ : Type} (be : Ptr σ (MockBackend T σ))
    (ctx : T.Context) (stackRef : T.StackReference)
    (cfg : T.StackConfiguration) (query : T.LogQuery) :
    Go σ (List T.LogEntry × GoError T) :=
  fun w =>
    match (be w).GetLogsF with
    | some f => f ctx stackRef cfg query w
    | none => notImplemented w

/-- Go `func (be *MockBackend) GetLatestConfiguration`. -/
def MockBackend.GetLatestConfiguration {T : Types} {σ : Type} (be : Ptr σ (MockBackend T σ))
    (ctx : T.Context) (stackRef : T.StackReference) :
    Go σ (T.ConfigMap × GoError T) :=
  fun w =>
    match (be w).GetLatestConfigurationF with
    | some f => f ctx stackRef w
    | none => notImplemented w

/-- Go `func (be *MockBackend) GetStackTags`. -/
def MockBackend.GetStackTags {T : Types} {σ : Type} (be : Ptr σ (MockBackend T σ))
    (ctx : T.Context) (stackRef : T.StackReference) :
    Go σ (T.StackTags × GoError T) :=
  fun w =>
    match (be w).GetStackTagsF with
    | some f => f ctx stackRef w
    | none => notImplemented w

/-- Go `func (be *MockBackend) UpdateStackTags`. -/
def MockBackend.UpdateStackTags {T : Types} {σ : Type} (be : Ptr σ (MockBackend T σ))
    (ctx : T.Context) (stackRef : T.StackReference) (tags : T.StackTags) :
    Go σ (GoError T) :=
  fun w =>
    match (be w).UpdateStackTagsF with
    | some f => f ctx stackRef tags w
    | none => notImplemented w

/-- Go `func (be *MockBackend) ExportDeployment`. -/
def MockBackend.ExportDeployment {T : Types} {σ : Type} (be : Ptr σ (MockBackend T σ))
    (ctx : T.Context) (stackRef : T.StackReference) :
    Go σ (T.UntypedDeployment × GoError T) :=
  fun w =>
    match (be w).ExportDeploymentF with
    | some f => f ctx stackRef w
    | none => notImplemented w

/-- Go `func (be *MockBackend) ImportDeployment`. -/
def MockBackend.ImportDeployment {T : Types} {σ : Type} (be : Ptr σ (MockBackend T σ))
    (ctx : T.Context) (stackRef : T.StackReference) (deployment : T.UntypedDeployment) :
    Go σ (GoError T) :=
  fun w =>
    match (be w).ImportDeploymentF with
    | some f => f ctx stackRef deployment w
    | none => notImplemented w

/-- Go `func (be *MockBackend) Logout`. -/
def MockBackend.Logout {T : Types} {σ : Type} (be : Ptr σ (MockBackend T σ)) :
    Go σ (GoError T) :=
  fun w =>
    match (be w).LogoutF with
    | some f => f w
    | none => notImplemented w

/-- Go `func (be *MockBackend) CurrentUser`. -/
def MockBackend.CurrentUser {T : Types} {σ : Type} (be : Ptr σ (MockBackend T σ)) :
    Go σ (String × GoError T) :=
  fun w =>
    match (be w).CurrentUserF with
    | some f => f w
    | none => notImplemented w

/-! ## The methods of `MockStack` -/

/-- Go `func (ms *MockStack) Ref`. -/
def MockStack.Ref {T : Types} {σ : Type} (ms : Ptr σ (MockStack T σ)) : Go σ T.StackReference :=
  fun w =>
    match (ms w).RefF with
    | some f => f w
    | none => notImplemented w

/-- Go `func (ms *MockStack) Config`. -/
def MockStack.Config {T : Types} {σ : Type} (ms : Ptr σ (MockStack T σ)) : Go σ T.ConfigMap :=
  fun w =>
    match (ms w).ConfigF with
    | some f => f w
    | none => notImplemented w

/-- Go `func (ms *MockStack) Snapshot`. -/
def MockStack.Snapshot {T : Types} {σ : Type} (ms : Ptr σ (MockStack T σ)) (ctx : T.Context) :
    Go σ (T.Snapshot × GoError T) :=
  fun w =>
    match (ms w).SnapshotF with
    | some f => f ctx w
    | none => notImplemented w

/-- Go `func (ms *MockStack) Backend`. -/
def MockStack.Backend {T : Types} {σ : Type} (ms : Ptr σ (MockStack T σ)) : Go σ T.Backend :=
  fun w =>
    match (ms w).BackendF with
    | some f => f w
    | none => notImplemented w

/-- Go `func (ms *MockStack) Preview`. -/
def MockStack.Preview {T : Types} {σ : Type} (ms : Ptr σ (MockStack T σ))
    (ctx : T.Context) (op : T.UpdateOperation) :
    Go σ (T.ResourceChanges × T.Result) :=
  fun w =>
    match (ms w).PreviewF with
    | some f => f ctx op w
    | none => notImplemented w

/-- Go `func (ms *MockStack) Update`. -/
def MockStack.Update {T : Types} {σ : Type} (ms : Ptr σ (MockStack T σ))
    (ctx : T.Context) (op : T.UpdateOperation) :
    Go σ (T.ResourceChanges × T.Result) :=
  fun w =>
    match (ms w).UpdateF with
    | some f => f ctx op w
    | none => notImplemented w

/-- Go `func (ms *MockStack) Refresh`. -/
def MockStack.Refresh {T : Types} {σ : Type} (ms : Ptr σ (MockStack T σ))
    (ctx : T.Context) (op : T.UpdateOperation) :
    Go σ (T.ResourceChanges × T.Result) :=
  fun w =>
    match (ms w).RefreshF with
    | some f => f ctx op w
    | none => notImplemented w

/-- Go `func (ms *MockStack) Destroy`. -/
def MockStack.Destroy {T : Types} {σ : Type} (ms : Ptr σ (MockStack T σ))
    (ctx : T.Context) (op : T.UpdateOperation) :
    Go σ (T.ResourceChanges × T.Result) :=
  fun w =>
    match (ms w).DestroyF with
    | some f => f ctx op w
    | none => notImplemented w

/-- Go `func (ms *MockStack) Watch`. -/
def MockStack.Watch {T : Types} {σ : Type} (ms : Ptr σ (MockStack T σ))
    (ctx : T.Context) (op : T.UpdateOperation) :
    Go σ T.Result :=
  fun w =>
    match (ms w).WatchF with
    | some f => f ctx op w
    | none => notImplemented w

/-- Go `func (ms *MockStack) Query`. -/
def MockStack.Query {T : Types} {σ : Type} (ms : Ptr σ (MockStack T σ))
    (ctx : T.Context) (op : T.UpdateOperation) :
    Go σ T.Result :=
  fun w =>
    match (ms w).QueryF with
    | some f => f ctx op w
    | none => notImplemented w

/-- Go `func (ms *MockStack) Remove`. -/
def MockStack.Remove {T : Types} {σ : Type} (ms : Ptr σ (MockStack T σ))
    (ctx : T.Context) (force : Bool) :
    Go σ (Bool × GoError T) :=
  fun w =>
    match (ms w).RemoveF with
    | some f => f ctx force w
    | none => notImplemented w

/-- Go `func (ms *MockStack) Rename`. -/
def MockStack.Rename {T : Types} {σ : Type} (ms : Ptr σ (MockStack T σ))
    (ctx : T.Context) (newName : T.QName) :
    Go σ (GoError T) :=
  fun w =>
    match (ms w).RenameF with
    | some f => f ctx newName w
    | none => notImplemented w

/-- Go `func (ms *MockStack) GetLogs`. -/
def MockStack.GetLogs {T : Types} {σ : Type} (ms : Ptr σ (MockStack T σ))
    (ctx : T.Context) (cfg : T.StackConfiguration) (query : T.LogQuery) :
    Go σ (List T.LogEntry × GoError T) :=
  fun w =>
    match (ms w).GetLogsF with
    | some f => f ctx cfg query w
    | none => notImplemented w

/-- Go `func (ms *MockStack) ExportDeployment`. -/
def MockStack.ExportDeployment {T : Types} {σ : Type} (ms : Ptr σ (MockStack T σ))
    (ctx : T.Context) :
    Go σ (T.UntypedDeployment × GoError T) :=
  fun w =>
    match (ms w).ExportDeploymentF with
    | some f => f ctx w
    | none => notImplemented w

/-- Go `func (ms *MockStack) ImportDeployment`. -/
def MockStack.ImportDeployment {T : Types} {σ : Type} (ms : Ptr σ (MockStack T σ))
    (ctx : T.Context) (deployment : T.UntypedDeployment) :
    Go σ (GoError T) :=
  fun w =>
    match (ms w).ImportDeploymentF with
    | some f => f ctx deployment w
    | none => notImplemented w


/-! ## Concrete instances

The types left open above, instantiated for the examples, and the mocks the
examples run. -/

/-- Modelled from the spec: `result.Result` (declared in package `result`) is "one of
{Succeeded, Failed(error), Bailed}". -/
inductive Result where
  | succeeded
  | failed (err : String)
  | bailed
deriving DecidableEq

/-- Modelled from the spec: `engine.ResourceChanges` (declared in package `engine`) is
"a count-by-kind summary (creates, updates, deletes, replacements, same)". -/
structure ResourceChanges where
  creates : Nat
  updates : Nat
  deletes : Nat
  replacements : Nat
  same : Nat
deriving DecidableEq

/-- A `StackReference` interface value of the examples: nil, or a reference with the
given string form. -/
inductive Ref where
  | nil
  | named (s : String)
deriving DecidableEq

/-- The `String()` method of the example references. -/
def refString : Ref → String
  | Ref.nil => ""
  | Ref.named s => s

/-- The instance of `Types` the examples use.  `Stack` and `Backend` values are the
addresses of the objects behind the interface values. -/
@[reducible] def Plain : Types where
  Context := Unit
  Sink := Unit
  PolicyPack := String
  StackReference := Ref
  Stack := Nat
  Backend := Nat
  Any := Unit
  ListStacksFilter := String
  StackSummary := String
  QName := String
  Crypter := Nat
  UpdateOperation := Nat
  Result := Result
  ConfigMap := List (String × String)
  UpdateInfo := Nat
  StackTags := List (String × String)
  UntypedDeployment := Nat
  ResourceChanges := ResourceChanges
  StackConfiguration := Unit
  LogQuery := String
  LogEntry := String
  Snapshot := Nat
  Err := String

/-- Go `&MockBackend{}`: no hook is set, and none ever gets set. -/
def emptyBackend {T : Types} {σ : Type} : Ptr σ (MockBackend T σ) :=
  fun _ => {}

/-- Go `&MockStack{}`: no hook is set, and none ever gets set. -/
def emptyStack {T : Types} {σ : Type} : Ptr σ (MockStack T σ) :=
  fun _ => {}

/-- An `UpdateF` hook that fails after two creations and one deletion were applied.  The
state counts the calls of the hook. -/
def failingUpdate : Unit → Ref → Nat → Go Nat (ResourceChanges × Result) :=
  fun _ _ _ n => (Outcome.ret (⟨2, 0, 1, 0, 5⟩, Result.failed "engine error"), n + 1)

/-- A backend whose only hook is `UpdateF`, set to `failingUpdate`. -/
def updateOnlyBackend : Ptr Nat (MockBackend Plain Nat) :=
  fun _ => { UpdateF := some failingUpdate }

/-- A `RemoveStackF` hook that reports the `force` flag it was called with and an error
naming the reference it was called with.  The state counts the calls of the hook. -/
def echoRemove : Unit → Ref → Bool → Go Nat (Bool × Option String) :=
  fun _ ref force n => (Outcome.ret (force, some (refString ref)), n + 1)

/-- A backend whose only hook is `RemoveStackF`, set to `echoRemove`. -/
def removeOnlyBackend : Ptr Nat (MockBackend Plain Nat) :=
  fun _ => { RemoveStackF := some echoRemove }

/-- A `WatchF` hook: it bails on operation 0 and succeeds on any other. -/
def watchHook : Unit → Ref → Nat → Go Unit Result :=
  fun _ _ op w => (Outcome.ret (if op = 0 then Result.bailed else Result.succeeded), w)

/-- A `QueryF` hook that always fails. -/
def queryHook : Unit → Ref → Nat → Go Unit Result :=
  fun _ _ _ w => (Outcome.ret (Result.failed "query failed"), w)

/-- A backend whose only hook is `WatchF`. -/
def watchBackend : Ptr Unit (MockBackend Plain Unit) :=
  fun _ => { WatchF := some watchHook }

/-- A backend with the same `WatchF` as `watchBackend`, and a `QueryF` and a `NameF` too. -/
def watchQueryBackend : Ptr Unit (MockBackend Plain Unit) :=
  fun _ => { WatchF := some watchHook, QueryF := some queryHook,
             NameF := some (fun w => (Outcome.ret "mock", w)) }

/-- A `ParseStackReferenceF` hook without effects: the empty string is rejected with an
error, any other string is the string form of the reference returned. -/
def parseNonEmpty {σ : Type} : String → Go σ (Ref × Option String) :=
  fun s w =>
    if s = "" then (Outcome.ret (Ref.nil, some "ParseError"), w)
    else (Outcome.ret (Ref.named s, none), w)

/-- A backend whose only hook is `ParseStackReferenceF`, set to `parseNonEmpty`. -/
def parsingBackend {σ : Type} : Ptr σ (MockBackend Plain σ) :=
  fun _ => { ParseStackReferenceF := some parseNonEmpty }

/-- A `ParseStackReferenceF` hook that resolves the alias `"latest"` to the reference
`"prod"` and rejects every other string, `"prod"` included. -/
def parseAlias : String → Go Unit (Ref × Option String) :=
  fun s w =>
    if s = "latest" then (Outcome.ret (Ref.named "prod", none), w)
    else (Outcome.ret (Ref.nil, some "ParseError"), w)

/-- A backend whose only hook is `ParseStackReferenceF`, set to `parseAlias`. -/
def aliasBackend : Ptr Unit (MockBackend Plain Unit) :=
  fun _ => { ParseStackReferenceF := some parseAlias }

/-- A one-shot `ParseStackReferenceF` hook: it returns the reference with the given
string form and clears the state flag. -/
def parseOneShot : String → Go Bool (Ref × Option String) :=
  fun s _ => (Outcome.ret (Ref.named s, none), false)

/-- A backend whose `ParseStackReferenceF` field is read from the state: it holds
`parseOneShot` while the flag is up, and is nil once the flag is cleared.  The hook
clears the flag, as a Go closure does that assigns `be.ParseStackReferenceF = nil`
before it returns. -/
def oneShotParser : Ptr Bool (MockBackend Plain Bool) :=
  fun flag => if flag then { ParseStackReferenceF := some parseOneShot } else {}

/-- A `GetStackF` hook that returns the stack at address 7 and clears the state flag. -/
def getStackOnce : Unit → Ref → Go Bool (Nat × Option String) :=
  fun _ _ _ => (Outcome.ret (7, none), false)

/-- A backend whose `GetStackF` field is read from the state: it holds `getStackOnce`
while the flag is up, and is nil once the flag is cleared.  The hook clears the flag,
as a Go closure does that assigns `be.GetStackF = nil` before it returns. -/
def oneShotBackend : Ptr Bool (MockBackend Plain Bool) :=
  fun flag => if flag then { GetStackF := some getStackOnce } else {}

/-- A `GetStackF` hook without effects that returns the stack at address 7. -/
def getStackSeven {σ : Type} : Unit → Ref → Go σ (Nat × Option String) :=
  fun _ _ w => (Outcome.ret (7, none), w)

/-- A backend whose only hook is `GetStackF`, set to `getStackSeven`. -/
def lookupBackend {σ : Type} : Ptr σ (MockBackend Plain σ) :=
  fun _ => { GetStackF := some getStackSeven }

/-- A `CreateStackF` hook without effects that returns the stack at address 9. -/
def createStackNine {σ : Type} : Unit → Ref → Unit → Go σ (Nat × Option String) :=
  fun _ _ _ w => (Outcome.ret (9, none), w)

/-- A backend with `GetStackF` set to `getStackSeven` and `CreateStackF` set to
`createStackNine`, and no other hook. -/
def directoryBackend {σ : Type} : Ptr σ (MockBackend Plain σ) :=
  fun _ => { GetStackF := some getStackSeven, CreateStackF := some createStackNine }

/-- A `CreateStackF` hook that panics and leaves the state flag up. -/
def createPanics : Unit → Ref → Unit → Go Bool (Nat × Option String) :=
  fun _ _ _ _ => (Outcome.panic "created", true)

/-- A call-counting `ParseStackReferenceF` hook: it returns the reference with the given
string form and adds one to the call counter of the state; it leaves the flag of the
state as it is. -/
def parseCounting : String → Go (Bool × Nat) (Ref × Option String) :=
  fun s w => (Outcome.ret (Ref.named s, none), (w.1, w.2 + 1))

/-- A backend whose `ParseStackReferenceF` field is read from the flag of the state: it
holds `parseCounting` while the flag is up and is nil otherwise. -/
def countingParser : Ptr (Bool × Nat) (MockBackend Plain (Bool × Nat)) :=
  fun w => if w.1 then { ParseStackReferenceF := some parseCounting } else {}

/-- A call-counting `GetStackF` hook: it returns the stack at address 7 and adds one to
the call counter of the state; it leaves the flag of the state as it is. -/
def getStackCounting : Unit → Ref → Go (Bool × Nat) (Nat × Option String) :=
  fun _ _ w => (Outcome.ret (7, none), (w.1, w.2 + 1))

/-- A backend whose `GetStackF` field is read from the flag of the state: it holds
`getStackCounting` while the flag is up and is nil otherwise. -/
def countingLookup : Ptr (Bool × Nat) (MockBackend Plain (Bool × Nat)) :=
  fun w => if w.1 then { GetStackF := some getStackCounting } else {}

/-- A heap of stacks where the stacks at addresses 7 and 9 have their `BackendF` hook
set, returning the backend at address 1, and every other stack is `&MockStack{}`. -/
def ownedStacks : Nat → Ptr Unit (MockStack Plain Unit) :=
  fun addr _ =>
    if addr = 7 ∨ addr = 9 then { BackendF := some (fun w => (Outcome.ret 1, w)) } else {}

/-- A heap of stacks where every stack is `&MockStack{}`. -/
def bareStacks : Nat → Ptr Unit (MockStack Plain Unit) :=
  fun _ => emptyStack

/-! ## Theorems -/

/-- C1: every method of `MockBackend` and of `MockStack`, for all arguments: when the
method's same-named hook field is unset (nil), the call panics with the message
`"not implemented"`; it returns no value, and it leaves the program state as it was. -/
theorem unset_hook_panics_not_implemented {T : Types} {σ : Type}
    (be : Ptr σ (MockBackend T σ)) (ms : Ptr σ (MockStack T σ)) (w : σ) :
    ((be w).NameF = none →
      MockBackend.Name be w = (Outcome.panic "not implemented", w)) ∧
    ((be w).URLF = none →
      MockBackend.URL be w = (Outcome.panic "not implemented", w)) ∧
    (∀ ctx policyPack d, (be w).GetPolicyPackF = none →
      MockBackend.GetPolicyPack be ctx policyPack d w = (Outcome.panic "not implemented", w)) ∧
    ((be w).SupportsOrganizationsF = none →
      MockBackend.SupportsOrganizations be w = (Outcome.panic "not implemented", w)) ∧
    (∀ s, (be w).ParseStackReferenceF = none →
      MockBackend.ParseStackReference be s w = (Outcome.panic "not implemented", w)) ∧
    (∀ ctx projectName, (be w).DoesProjectExistF = none →
      MockBackend.DoesProjectExist be ctx projectName w = (Outcome.panic "not implemented", w)) ∧
    (∀ ctx stackRef, (be w).GetStackF = none →
      MockBackend.GetStack be ctx stackRef w = (Outcome.panic "not implemented", w)) ∧
    (∀ ctx stackRef opts, (be w).CreateStackF = none →
      MockBackend.CreateStack be ctx stackRef opts w = (Outcome.panic "not implemented", w)) ∧
    (∀ ctx stackRef force, (be w).RemoveStackF = none →
      MockBackend.RemoveStack be ctx stackRef force w = (Outcome.panic "not implemented", w)) ∧
    (∀ ctx filter, (be w).ListStacksF = none →
      MockBackend.ListStacks be ctx filter w = (Outcome.panic "not implemented", w)) ∧
    (∀ ctx stackRef newName, (be w).RenameStackF = none →
      MockBackend.RenameStack be ctx stackRef newName w = (Outcome.panic "not implemented", w)) ∧
    (∀ stackRef, (be w).GetStackCrypterF = none →
      MockBackend.GetStackCrypter be stackRef w = (Outcome.panic "not implemented", w)) ∧
    (∀ ctx stackRef op, (be w).PreviewF = none →
      MockBackend.Preview be ctx stackRef op w = (Outcome.panic "not implemented", w)) ∧
    (∀ ctx stackRef op, (be w).UpdateF = none →
      MockBackend.Update be ctx stackRef op w = (Outcome.panic "not implemented", w)) ∧
    (∀ ctx stackRef op, (be w).RefreshF = none →
      MockBackend.Refresh be ctx stackRef op w = (Outcome.panic "not implemented", w)) ∧
    (∀ ctx stackRef op, (be w).DestroyF = none →
      MockBackend.Destroy be ctx stackRef op w = (Outcome.panic "not implemented", w)) ∧
    (∀ ctx stackRef op, (be w).WatchF = none →
      MockBackend.Watch be ctx stackRef op w = (Outcome.panic "not implemented", w)) ∧
    (∀ ctx stackRef op, (be w).QueryF = none →
      MockBackend.Query be ctx stackRef op w = (Outcome.panic "not implemented", w)) ∧
    (∀ ctx stackRef, (be w).GetHistoryF = none →
      MockBackend.GetHistory be ctx stackRef w = (Outcome.panic "not implemented", w)) ∧
    (∀ ctx stackRef cfg query, (be w).GetLogsF = none →
      MockBackend.GetLogs be ctx stackRef cfg query w = (Outcome.panic "not implemented", w)) ∧
    (∀ ctx stackRef, (be w).GetLatestConfigurationF = none →
      MockBackend.GetLatestConfiguration be ctx stackRef w = (Outcome.panic "not implemented", w)) ∧
    (∀ ctx stackRef, (be w).GetStackTagsF = none →
      MockBackend.GetStackTags be ctx stackRef w = (Outcome.panic "not implemented", w)) ∧
    (∀ ctx stackRef tags, (be w).UpdateStackTagsF = none →
      MockBackend.UpdateStackTags be ctx stackRef tags w = (Outcome.panic "not implemented", w)) ∧
    (∀ ctx stackRef, (be w).ExportDeploymentF = none →
      MockBackend.ExportDeployment be ctx stackRef w = (Outcome.panic "not implemented", w)) ∧
    (∀ ctx stackRef deployment, (be w).ImportDeploymentF = none →
      MockBackend.ImportDeployment be ctx stackRef deployment w =
        (Outcome.panic "not implemented", w)) ∧
    ((be w).LogoutF = none →
      MockBackend.Logout be w = (Outcome.panic "not implemented", w)) ∧
    ((be w).CurrentUserF = none →
      MockBackend.CurrentUser be w = (Outcome.panic "not implemented", w)) ∧
    ((ms w).RefF = none →
      MockStack.Ref ms w = (Outcome.panic "not implemented", w)) ∧
    ((ms w).ConfigF = none →
      MockStack.Config ms w = (Outcome.panic "not implemented", w)) ∧
    (∀ ctx, (ms w).SnapshotF = none →
      MockStack.Snapshot ms ctx w = (Outcome.panic "not implemented", w)) ∧
    ((ms w).BackendF = none →
      MockStack.Backend ms w = (Outcome.panic "not implemented", w)) ∧
    (∀ ctx op, (ms w).PreviewF = none →
      MockStack.Preview ms ctx op w = (Outcome.panic "not implemented", w)) ∧
    (∀ ctx op, (ms w).UpdateF = none →
      MockStack.Update ms ctx op w = (Outcome.panic "not implemented", w)) ∧
    (∀ ctx op, (ms w).RefreshF = none →
      MockStack.Refresh ms ctx op w = (Outcome.panic "not implemented", w)) ∧
    (∀ ctx op, (ms w).DestroyF = none →
      MockStack.Destroy ms ctx op w = (Outcome.panic "not implemented", w)) ∧
    (∀ ctx op, (ms w).WatchF = none →
      MockStack.Watch ms ctx op w = (Outcome.panic "not implemented", w)) ∧
    (∀ ctx op, (ms w).QueryF = none →
      MockStack.Query ms ctx op w = (Outcome.panic "not implemented", w)) ∧
    (∀ ctx force, (ms w).RemoveF = none →
      MockStack.Remove ms ctx force w = (Outcome.panic "not implemented", w)) ∧
    (∀ ctx newName, (ms w).RenameF = none →
      MockStack.Rename ms ctx newName w = (Outcome.panic "not implemented", w)) ∧
    (∀ ctx cfg query, (ms w).GetLogsF = none →
      MockStack.GetLogs ms ctx cfg query w = (Outcome.panic "not implemented", w)) ∧
    (∀ ctx, (ms w).ExportDeploymentF = none →
      MockStack.ExportDeployment ms ctx w = (Outcome.panic "not implemented", w)) ∧
    (∀ ctx deployment, (ms w).ImportDeploymentF = none →
      MockStack.ImportDeployment ms ctx deployment w = (Outcome.panic "not implemented", w)) := by
  repeat' constructor
  all_goals
    intros
    simp only [
      MockBackend.Name, MockBackend.URL, MockBackend.GetPolicyPack,
      MockBackend.SupportsOrganizations, MockBackend.ParseStackReference,
      MockBackend.DoesProjectExist, MockBackend.GetStack, MockBackend.CreateStack,
      MockBackend.RemoveStack, MockBackend.ListStacks, MockBackend.RenameStack,
      MockBackend.GetStackCrypter, MockBackend.Preview, MockBackend.Update, MockBackend.Refresh,
      MockBackend.Destroy, MockBackend.Watch, MockBackend.Query, MockBackend.GetHistory,
      MockBackend.GetLogs, MockBackend.GetLatestConfiguration, MockBackend.GetStackTags,
      MockBackend.UpdateStackTags, MockBackend.ExportDeployment, MockBackend.ImportDeployment,
      MockBackend.Logout, MockBackend.CurrentUser, MockStack.Ref, MockStack.Config,
      MockStack.Snapshot, MockStack.Backend, MockStack.Preview, MockStack.Update,
      MockStack.Refresh, MockStack.Destroy, MockStack.Watch, MockStack.Query, MockStack.Remove,
      MockStack.Rename, MockStack.GetLogs, MockStack.ExportDeployment, MockStack.ImportDeployment,
      notImplemented, *]

/-- C2: `Preview`, `Update`, `Refresh` and `Destroy` of `MockBackend` and of `MockStack`,
for every context, stack reference and operation: when the hook field is set, the call
is one call of the hook on the same arguments.  It returns exactly the pair
(ResourceChanges, Result) that the hook returns, whatever the Result is, and has
exactly the hook's effect on the program state. -/
theorem update_operations_return_the_hook_pair {T : Types} {σ : Type}
    (be : Ptr σ (MockBackend T σ)) (ms : Ptr σ (MockStack T σ)) (w : σ) :
    (∀ ctx stackRef op f, (be w).PreviewF = some f →
      MockBackend.Preview be ctx stackRef op w = f ctx stackRef op w) ∧
    (∀ ctx stackRef op f, (be w).UpdateF = some f →
      MockBackend.Update be ctx stackRef op w = f ctx stackRef op w) ∧
    (∀ ctx stackRef op f, (be w).RefreshF = some f →
      MockBackend.Refresh be ctx stackRef op w = f ctx stackRef op w) ∧
    (∀ ctx stackRef op f, (be w).DestroyF = some f →
      MockBackend.Destroy be ctx stackRef op w = f ctx stackRef op w) ∧
    (∀ ctx op f, (ms w).PreviewF = some f →
      MockStack.Preview ms ctx op w = f ctx op w) ∧
    (∀ ctx op f, (ms w).UpdateF = some f →
      MockStack.Update ms ctx op w = f ctx op w) ∧
    (∀ ctx op f, (ms w).RefreshF = some f →
      MockStack.Refresh ms ctx op w = f ctx op w) ∧
    (∀ ctx op f, (ms w).DestroyF = some f →
      MockStack.Destroy ms ctx op w = f ctx op w) := by
  repeat' constructor
  all_goals
    intros
    simp only [
      MockBackend.Name, MockBackend.URL, MockBackend.GetPolicyPack,
      MockBackend.SupportsOrganizations, MockBackend.ParseStackReference,
      MockBackend.DoesProjectExist, MockBackend.GetStack, MockBackend.CreateStack,
      MockBackend.RemoveStack, MockBackend.ListStacks, MockBackend.RenameStack,
      MockBackend.GetStackCrypter, MockBackend.Preview, MockBackend.Update, MockBackend.Refresh,
      MockBackend.Destroy, MockBackend.Watch, MockBackend.Query, MockBackend.GetHistory,
      MockBackend.GetLogs, MockBackend.GetLatestConfiguration, MockBackend.GetStackTags,
      MockBackend.UpdateStackTags, MockBackend.ExportDeployment, MockBackend.ImportDeployment,
      MockBackend.Logout, MockBackend.CurrentUser, MockStack.Ref, MockStack.Config,
      MockStack.Snapshot, MockStack.Backend, MockStack.Preview, MockStack.Update,
      MockStack.Refresh, MockStack.Destroy, MockStack.Watch, MockStack.Query, MockStack.Remove,
      MockStack.Rename, MockStack.GetLogs, MockStack.ExportDeployment, MockStack.ImportDeployment,
      notImplemented, *]

/-- C9: every method of `MockBackend` and of `MockStack` other than `Preview`, `Update`,
`Refresh` and `Destroy`: when its hook field is set, the call is one call of the hook
with the arguments the method received, in the declared order and unmodified.  It has
the hook's outcome (the returned values, error included, or the hook's panic) and the
effect of that single call on the program state. -/
theorem administrative_methods_pass_through {T : Types} {σ : Type}
    (be : Ptr σ (MockBackend T σ)) (ms : Ptr σ (MockStack T σ)) (w : σ) :
    (∀ f, (be w).NameF = some f →
      MockBackend.Name be w = f w) ∧
    (∀ f, (be w).URLF = some f →
      MockBackend.URL be w = f w) ∧
    (∀ ctx policyPack d f, (be w).GetPolicyPackF = some f →
      MockBackend.GetPolicyPack be ctx policyPack d w = f ctx policyPack d w) ∧
    (∀ f, (be w).SupportsOrganizationsF = some f →
      MockBackend.SupportsOrganizations be w = f w) ∧
    (∀ s f, (be w).ParseStackReferenceF = some f →
      MockBackend.ParseStackReference be s w = f s w) ∧
    (∀ ctx projectName f, (be w).DoesProjectExistF = some f →
      MockBackend.DoesProjectExist be ctx projectName w = f ctx projectName w) ∧
    (∀ ctx stackRef f, (be w).GetStackF = some f →
      MockBackend.GetStack be ctx stackRef w = f ctx stackRef w) ∧
    (∀ ctx stackRef opts f, (be w).CreateStackF = some f →
      MockBackend.CreateStack be ctx stackRef opts w = f ctx stackRef opts w) ∧
    (∀ ctx stackRef force f, (be w).RemoveStackF = some f →
      MockBackend.RemoveStack be ctx stackRef force w = f ctx stackRef force w) ∧
    (∀ ctx filter f, (be w).ListStacksF = some f →
      MockBackend.ListStacks be ctx filter w = f ctx filter w) ∧
    (∀ ctx stackRef newName f, (be w).RenameStackF = some f →
      MockBackend.RenameStack be ctx stackRef newName w = f ctx stackRef newName w) ∧
    (∀ stackRef f, (be w).GetStackCrypterF = some f →
      MockBackend.GetStackCrypter be stackRef w = f stackRef w) ∧
    (∀ ctx stackRef op f, (be w).WatchF = some f →
      MockBackend.Watch be ctx stackRef op w = f ctx stackRef op w) ∧
    (∀ ctx stackRef op f, (be w).QueryF = some f →
      MockBackend.Query be ctx stackRef op w = f ctx stackRef op w) ∧
    (∀ ctx stackRef f, (be w).GetHistoryF = some f →
      MockBackend.GetHistory be ctx stackRef w = f ctx stackRef w) ∧
    (∀ ctx stackRef cfg query f, (be w).GetLogsF = some f →
      MockBackend.GetLogs be ctx stackRef cfg query w = f ctx stackRef cfg query w) ∧
    (∀ ctx stackRef f, (be w).GetLatestConfigurationF = some f →
      MockBackend.GetLatestConfiguration be ctx stackRef w = f ctx stackRef w) ∧
    (∀ ctx stackRef f, (be w).GetStackTagsF = some f →
      MockBackend.GetStackTags be ctx stackRef w = f ctx stackRef w) ∧
    (∀ ctx stackRef tags f, (be w).UpdateStackTagsF = some f →
      MockBackend.UpdateStackTags be ctx stackRef tags w = f ctx stackRef tags w) ∧
    (∀ ctx stackRef f, (be w).ExportDeploymentF = some f →
      MockBackend.ExportDeployment be ctx stackRef w = f ctx stackRef w) ∧
    (∀ ctx stackRef deployment f, (be w).ImportDeploymentF = some f →
      MockBackend.ImportDeployment be ctx stackRef deployment w = f ctx stackRef deployment w) ∧
    (∀ f, (be w).LogoutF = some f →
      MockBackend.Logout be w = f w) ∧
    (∀ f, (be w).CurrentUserF = some f →
      MockBackend.CurrentUser be w = f w) ∧
    (∀ f, (ms w).RefF = some f →
      MockStack.Ref ms w = f w) ∧
    (∀ f, (ms w).ConfigF = some f →
      MockStack.Config ms w = f w) ∧
    (∀ ctx f, (ms w).SnapshotF = some f →
      MockStack.Snapshot ms ctx w = f ctx w) ∧
    (∀ f, (ms w).BackendF = some f →
      MockStack.Backend ms w = f w) ∧
    (∀ ctx op f, (ms w).WatchF = some f →
      MockStack.Watch ms ctx op w = f ctx op w) ∧
    (∀ ctx op f, (ms w).QueryF = some f →
      MockStack.Query ms ctx op w = f ctx op w) ∧
    (∀ ctx force f, (ms w).RemoveF = some f →
      MockStack.Remove ms ctx force w = f ctx force w) ∧
    (∀ ctx newName f, (ms w).RenameF = some f →
      MockStack.Rename ms ctx newName w = f ctx newName w) ∧
    (∀ ctx cfg query f, (ms w).GetLogsF = some f →
      MockStack.GetLogs ms ctx cfg query w = f ctx cfg query w) ∧
    (∀ ctx f, (ms w).ExportDeploymentF = some f →
      MockStack.ExportDeployment ms ctx w = f ctx w) ∧
    (∀ ctx deployment f, (ms w).ImportDeploymentF = some f →
      MockStack.ImportDeployment ms ctx deployment w = f ctx deployment w) := by
  repeat' constructor
  all_goals
    intros
    simp only [
      MockBackend.Name, MockBackend.URL, MockBackend.GetPolicyPack,
      MockBackend.SupportsOrganizations, MockBackend.ParseStackReference,
      MockBackend.DoesProjectExist, MockBackend.GetStack, MockBackend.CreateStack,
      MockBackend.RemoveStack, MockBackend.ListStacks, MockBackend.RenameStack,
      MockBackend.GetStackCrypter, MockBackend.Preview, MockBackend.Update, MockBackend.Refresh,
      MockBackend.Destroy, MockBackend.Watch, MockBackend.Query, MockBackend.GetHistory,
      MockBackend.GetLogs, MockBackend.GetLatestConfiguration, MockBackend.GetStackTags,
      MockBackend.UpdateStackTags, MockBackend.ExportDeployment, MockBackend.ImportDeployment,
      MockBackend.Logout, MockBackend.CurrentUser, MockStack.Ref, MockStack.Config,
      MockStack.Snapshot, MockStack.Backend, MockStack.Preview, MockStack.Update,
      MockStack.Refresh, MockStack.Destroy, MockStack.Watch, MockStack.Query, MockStack.Remove,
      MockStack.Rename, MockStack.GetLogs, MockStack.ExportDeployment, MockStack.ImportDeployment,
      notImplemented, *]

/-- C10: hook independence.  For every method of `MockBackend` and of `MockStack`: two
mocks that agree on the method's same-named hook field give, from the same program
state and for all arguments, the same outcome and the same state after the call,
however their other fields differ. -/
theorem method_depends_only_on_its_own_hook {T : Types} {σ : Type}
    (be₁ be₂ : Ptr σ (MockBackend T σ)) (ms₁ ms₂ : Ptr σ (MockStack T σ)) (w : σ) :
    ((be₁ w).NameF = (be₂ w).NameF →
      MockBackend.Name be₁ w = MockBackend.Name be₂ w) ∧
    ((be₁ w).URLF = (be₂ w).URLF →
      MockBackend.URL be₁ w = MockBackend.URL be₂ w) ∧
    (∀ ctx policyPack d, (be₁ w).GetPolicyPackF = (be₂ w).GetPolicyPackF →
      MockBackend.GetPolicyPack be₁ ctx policyPack d w =
        MockBackend.GetPolicyPack be₂ ctx policyPack d w) ∧
    ((be₁ w).SupportsOrganizationsF = (be₂ w).SupportsOrganizationsF →
      MockBackend.SupportsOrganizations be₁ w = MockBackend.SupportsOrganizations be₂ w) ∧
    (∀ s, (be₁ w).ParseStackReferenceF = (be₂ w).ParseStackReferenceF →
      MockBackend.ParseStackReference be₁ s w = MockBackend.ParseStackReference be₂ s w) ∧
    (∀ ctx projectName, (be₁ w).DoesProjectExistF = (be₂ w).DoesProjectExistF →
      MockBackend.DoesProjectExist be₁ ctx projectName w =
        MockBackend.DoesProjectExist be₂ ctx projectName w) ∧
    (∀ ctx stackRef, (be₁ w).GetStackF = (be₂ w).GetStackF →
      MockBackend.GetStack be₁ ctx stackRef w = MockBackend.GetStack be₂ ctx stackRef w) ∧
    (∀ ctx stackRef opts, (be₁ w).CreateStackF = (be₂ w).CreateStackF →
      MockBackend.CreateStack be₁ ctx stackRef opts w =
        MockBackend.CreateStack be₂ ctx stackRef opts w) ∧
    (∀ ctx stackRef force, (be₁ w).RemoveStackF = (be₂ w).RemoveStackF →
      MockBackend.RemoveStack be₁ ctx stackRef force w =
        MockBackend.RemoveStack be₂ ctx stackRef force w) ∧
    (∀ ctx filter, (be₁ w).ListStacksF = (be₂ w).ListStacksF →
      MockBackend.ListStacks be₁ ctx filter w = MockBackend.ListStacks be₂ ctx filter w) ∧
    (∀ ctx stackRef newName, (be₁ w).RenameStackF = (be₂ w).RenameStackF →
      MockBackend.RenameStack be₁ ctx stackRef newName w =
        MockBackend.RenameStack be₂ ctx stackRef newName w) ∧
    (∀ stackRef, (be₁ w).GetStackCrypterF = (be₂ w).GetStackCrypterF →
      MockBackend.GetStackCrypter be₁ stackRef w = MockBackend.GetStackCrypter be₂ stackRef w) ∧
    (∀ ctx stackRef op, (be₁ w).PreviewF = (be₂ w).PreviewF →
      MockBackend.Preview be₁ ctx stackRef op w = MockBackend.Preview be₂ ctx stackRef op w) ∧
    (∀ ctx stackRef op, (be₁ w).UpdateF = (be₂ w).UpdateF →
      MockBackend.Update be₁ ctx stackRef op w = MockBackend.Update be₂ ctx stackRef op w) ∧
    (∀ ctx stackRef op, (be₁ w).RefreshF = (be₂ w).RefreshF →
      MockBackend.Refresh be₁ ctx stackRef op w = MockBackend.Refresh be₂ ctx stackRef op w) ∧
    (∀ ctx stackRef op, (be₁ w).DestroyF = (be₂ w).DestroyF →
      MockBackend.Destroy be₁ ctx stackRef op w = MockBackend.Destroy be₂ ctx stackRef op w) ∧
    (∀ ctx stackRef op, (be₁ w).WatchF = (be₂ w).WatchF →
      MockBackend.Watch be₁ ctx stackRef op w = MockBackend.Watch be₂ ctx stackRef op w) ∧
    (∀ ctx stackRef op, (be₁ w).QueryF = (be₂ w).QueryF →
      MockBackend.Query be₁ ctx stackRef op w = MockBackend.Query be₂ ctx stackRef op w) ∧
    (∀ ctx stackRef, (be₁ w).GetHistoryF = (be₂ w).GetHistoryF →
      MockBackend.GetHistory be₁ ctx stackRef w = MockBackend.GetHistory be₂ ctx stackRef w) ∧
    (∀ ctx stackRef cfg query, (be₁ w).GetLogsF = (be₂ w).GetLogsF →
      MockBackend.GetLogs be₁ ctx stackRef cfg query w =
        MockBackend.GetLogs be₂ ctx stackRef cfg query w) ∧
    (∀ ctx stackRef, (be₁ w).GetLatestConfigurationF = (be₂ w).GetLatestConfigurationF →
      MockBackend.GetLatestConfiguration be₁ ctx stackRef w =
        MockBackend.GetLatestConfiguration be₂ ctx stackRef w) ∧
    (∀ ctx stackRef, (be₁ w).GetStackTagsF = (be₂ w).GetStackTagsF →
      MockBackend.GetStackTags be₁ ctx stackRef w = MockBackend.GetStackTags be₂ ctx stackRef w) ∧
    (∀ ctx stackRef tags, (be₁ w).UpdateStackTagsF = (be₂ w).UpdateStackTagsF →
      MockBackend.UpdateStackTags be₁ ctx stackRef tags w =
        MockBackend.UpdateStackTags be₂ ctx stackRef tags w) ∧
    (∀ ctx stackRef, (be₁ w).ExportDeploymentF = (be₂ w).ExportDeploymentF →
      MockBackend.ExportDeployment be₁ ctx stackRef w =
        MockBackend.ExportDeployment be₂ ctx stackRef w) ∧
    (∀ ctx stackRef deployment, (be₁ w).ImportDeploymentF = (be₂ w).ImportDeploymentF →
      MockBackend.ImportDeployment be₁ ctx stackRef deployment w =
        MockBackend.ImportDeployment be₂ ctx stackRef deployment w) ∧
    ((be₁ w).LogoutF = (be₂ w).LogoutF →
      MockBackend.Logout be₁ w = MockBackend.Logout be₂ w) ∧
    ((be₁ w).CurrentUserF = (be₂ w).CurrentUserF →
      MockBackend.CurrentUser be₁ w = MockBackend.CurrentUser be₂ w) ∧
    ((ms₁ w).RefF = (ms₂ w).RefF →
      MockStack.Ref ms₁ w = MockStack.Ref ms₂ w) ∧
    ((ms₁ w).ConfigF = (ms₂ w).ConfigF →
      MockStack.Config ms₁ w = MockStack.Config ms₂ w) ∧
    (∀ ctx, (ms₁ w).SnapshotF = (ms₂ w).SnapshotF →
      MockStack.Snapshot ms₁ ctx w = MockStack.Snapshot ms₂ ctx w) ∧
    ((ms₁ w).BackendF = (ms₂ w).BackendF →
      MockStack.Backend ms₁ w = MockStack.Backend ms₂ w) ∧
    (∀ ctx op, (ms₁ w).PreviewF = (ms₂ w).PreviewF →
      MockStack.Preview ms₁ ctx op w = MockStack.Preview ms₂ ctx op w) ∧
    (∀ ctx op, (ms₁ w).UpdateF = (ms₂ w).UpdateF →
      MockStack.Update ms₁ ctx op w = MockStack.Update ms₂ ctx op w) ∧
    (∀ ctx op, (ms₁ w).RefreshF = (ms₂ w).RefreshF →
      MockStack.Refresh ms₁ ctx op w = MockStack.Refresh ms₂ ctx op w) ∧
    (∀ ctx op, (ms₁ w).DestroyF = (ms₂ w).DestroyF →
      MockStack.Destroy ms₁ ctx op w = MockStack.Destroy ms₂ ctx op w) ∧
    (∀ ctx op, (ms₁ w).WatchF = (ms₂ w).WatchF →
      MockStack.Watch ms₁ ctx op w = MockStack.Watch ms₂ ctx op w) ∧
    (∀ ctx op, (ms₁ w).QueryF = (ms₂ w).QueryF →
      MockStack.Query ms₁ ctx op w = MockStack.Query ms₂ ctx op w) ∧
    (∀ ctx force, (ms₁ w).RemoveF = (ms₂ w).RemoveF →
      MockStack.Remove ms₁ ctx force w = MockStack.Remove ms₂ ctx force w) ∧
    (∀ ctx newName, (ms₁ w).RenameF = (ms₂ w).RenameF →
      MockStack.Rename ms₁ ctx newName w = MockStack.Rename ms₂ ctx newName w) ∧
    (∀ ctx cfg query, (ms₁ w).GetLogsF = (ms₂ w).GetLogsF →
      MockStack.GetLogs ms₁ ctx cfg query w = MockStack.GetLogs ms₂ ctx cfg query w) ∧
    (∀ ctx, (ms₁ w).ExportDeploymentF = (ms₂ w).ExportDeploymentF →
      MockStack.ExportDeployment ms₁ ctx w = MockStack.ExportDeployment ms₂ ctx w) ∧
    (∀ ctx deployment, (ms₁ w).ImportDeploymentF = (ms₂ w).ImportDeploymentF →
      MockStack.ImportDeployment ms₁ ctx deployment w =
        MockStack.ImportDeployment ms₂ ctx deployment w) := by
  repeat' constructor
  all_goals
    intros
    simp only [
      MockBackend.Name, MockBackend.URL, MockBackend.GetPolicyPack,
      MockBackend.SupportsOrganizations, MockBackend.ParseStackReference,
      MockBackend.DoesProjectExist, MockBackend.GetStack, MockBackend.CreateStack,
      MockBackend.RemoveStack, MockBackend.ListStacks, MockBackend.RenameStack,
      MockBackend.GetStackCrypter, MockBackend.Preview, MockBackend.Update, MockBackend.Refresh,
      MockBackend.Destroy, MockBackend.Watch, MockBackend.Query, MockBackend.GetHistory,
      MockBackend.GetLogs, MockBackend.GetLatestConfiguration, MockBackend.GetStackTags,
      MockBackend.UpdateStackTags, MockBackend.ExportDeployment, MockBackend.ImportDeployment,
      MockBackend.Logout, MockBackend.CurrentUser, MockStack.Ref, MockStack.Config,
      MockStack.Snapshot, MockStack.Backend, MockStack.Preview, MockStack.Update,
      MockStack.Refresh, MockStack.Destroy, MockStack.Watch, MockStack.Query, MockStack.Remove,
      MockStack.Rename, MockStack.GetLogs, MockStack.ExportDeployment, MockStack.ImportDeployment,
      notImplemented, *]

/-- C1 at `&MockBackend{}` and `&MockStack{}`: `Name` and `Backend` panic with
`"not implemented"`. -/
theorem unset_hook_panics_not_implemented_witness :
    MockBackend.Name (emptyBackend : Ptr Unit (MockBackend Plain Unit)) () =
        (Outcome.panic "not implemented", ()) ∧
      MockStack.Backend (emptyStack : Ptr Unit (MockStack Plain Unit)) () =
        (Outcome.panic "not implemented", ()) :=
  have h := unset_hook_panics_not_implemented
    (emptyBackend : Ptr Unit (MockBackend Plain Unit)) emptyStack ()
  ⟨h.1 rfl, h.2.2.2.2.2.2.2.2.2.2.2.2.2.2.2.2.2.2.2.2.2.2.2.2.2.2.2.2.2.2.1 rfl⟩

/-- C2 at a failing update: `Update` returns the changes applied before the failure
together with the `Failed` result, and the hook ran once. -/
theorem update_operations_return_the_hook_pair_witness :
    MockBackend.Update updateOnlyBackend () (Ref.named "dev") 0 0 =
      (Outcome.ret (⟨2, 0, 1, 0, 5⟩, Result.failed "engine error"), 1) :=
  (update_operations_return_the_hook_pair updateOnlyBackend emptyStack 0).2.1
    () (Ref.named "dev") 0 failingUpdate rfl

/-- C9 at `RemoveStack`: the reference and the `force` flag reach the hook unchanged, the
hook's value and error come back, and the hook ran once. -/
theorem administrative_methods_pass_through_witness :
    MockBackend.RemoveStack removeOnlyBackend () (Ref.named "dev") true 0 =
        (Outcome.ret (true, some "dev"), 1) ∧
      MockBackend.RemoveStack removeOnlyBackend () (Ref.named "prod") false 4 =
        (Outcome.ret (false, some "prod"), 5) :=
  ⟨(administrative_methods_pass_through removeOnlyBackend emptyStack 0).2.2.2.2.2.2.2.2.1
      () (Ref.named "dev") true echoRemove rfl,
   (administrative_methods_pass_through removeOnlyBackend emptyStack 4).2.2.2.2.2.2.2.2.1
      () (Ref.named "prod") false echoRemove rfl⟩

/-- C10 at `Watch`: a backend with only `WatchF` and one that has `QueryF` and `NameF`
too give the same outcome for `Watch`. -/
theorem method_depends_only_on_its_own_hook_witness :
    MockBackend.Watch watchBackend () (Ref.named "dev") 0 () =
      MockBackend.Watch watchQueryBackend () (Ref.named "dev") 0 () :=
  (method_depends_only_on_its_own_hook watchBackend watchQueryBackend
      emptyStack emptyStack ()).2.2.2.2.2.2.2.2.2.2.2.2.2.2.2.2.1
    () (Ref.named "dev") 0 rfl

/-! ### Parsing stack references (C3, C4, C5) -/

/-- C3 fails at `&MockBackend{}`: with `ParseStackReferenceF` unset, parsing `"dev"`
panics with `"not implemented"` instead of returning a reference or an error. -/
theorem parse_panics_when_hook_unset :
    MockBackend.ParseStackReference (emptyBackend : Ptr Unit (MockBackend Plain Unit)) "dev" () =
        (Outcome.panic "not implemented", ()) ∧
      ¬ ∃ (ref : Ref) (err : Option String) (w : Unit),
          MockBackend.ParseStackReference (emptyBackend : Ptr Unit (MockBackend Plain Unit))
            "dev" () = (Outcome.ret (ref, err), w) := by
  refine ⟨rfl, ?_⟩
  rintro ⟨ref, err, w, h⟩
  simp [MockBackend.ParseStackReference, emptyBackend, notImplemented] at h

/-- C3, amended: for every string `s`, when `ParseStackReferenceF` is set to a hook that
returns on `s` (does not panic), `ParseStackReference(s)` returns a reference and an
error value, and does not panic. -/
theorem parse_returns_when_hook_returns {T : Types} {σ : Type}
    (be : Ptr σ (MockBackend T σ)) (s : String) (w : σ)
    (f : String → Go σ (T.StackReference × GoError T))
    (hset : (be w).ParseStackReferenceF = some f)
    (hret : (f s w).1.returns = true) :
    ∃ (ref : T.StackReference) (err : GoError T) (w1 : σ),
      MockBackend.ParseStackReference be s w = (Outcome.ret (ref, err), w1) := by
  have hcall : MockBackend.ParseStackReference be s w = f s w := by
    simp only [MockBackend.ParseStackReference, hset]
  rw [hcall]
  rcases hfs : f s w with ⟨o, w1⟩
  rw [hfs] at hret
  cases o with
  | ret v => exact ⟨v.1, v.2, w1, rfl⟩
  | panic msg => simp [Outcome.returns] at hret

/-- C3, amended, at a backend whose hook rejects the empty string with an error: the
invalid string is answered with an error value, not a panic. -/
theorem parse_returns_when_hook_returns_witness :
    ∃ (ref : Ref) (err : Option String) (w1 : Unit),
      MockBackend.ParseStackReference (parsingBackend : Ptr Unit (MockBackend Plain Unit)) "" () =
        (Outcome.ret (ref, err), w1) :=
  parse_returns_when_hook_returns parsingBackend "" () parseNonEmpty rfl rfl

/-- C4 fails at a backend whose hook resolves an alias: `"latest"` parses to the
reference with string form `"prod"`, and parsing `"prod"` fails with an error. -/
theorem parse_round_trip_fails_for_alias_hook :
    MockBackend.ParseStackReference aliasBackend "latest" () =
        (Outcome.ret (Ref.named "prod", none), ()) ∧
      MockBackend.ParseStackReference aliasBackend (refString (Ref.named "prod")) () =
        (Outcome.ret (Ref.nil, some "ParseError"), ()) ∧
      MockBackend.ParseStackReference aliasBackend (refString (Ref.named "prod")) () ≠
        (Outcome.ret (Ref.named "prod", none), ()) := by
  refine ⟨rfl, rfl, ?_⟩
  simp [MockBackend.ParseStackReference, aliasBackend, parseAlias, refString]

/-- C4, amended: for every backend whose `ParseStackReferenceF` hook is set and itself
obeys the round-trip law (parsing the string form of a reference it returned without
error succeeds and returns that reference), `ParseStackReference` obeys it:
for every reference `ref` that `ParseStackReference` returned without error,
`ParseStackReference(ref.String())` succeeds and returns `ref`. -/
theorem parse_round_trip_of_hook_round_trip {T : Types} {σ : Type}
    (str : T.StackReference → String)
    (be : Ptr σ (MockBackend T σ)) (f : String → Go σ (T.StackReference × GoError T))
    (hset : ∀ w, (be w).ParseStackReferenceF = some f)
    (hlaw : ∀ s w ref w1, f s w = (Outcome.ret (ref, none), w1) →
      ∃ w2, f (str ref) w1 = (Outcome.ret (ref, none), w2))
    (s : String) (w : σ) (ref : T.StackReference) (w1 : σ)
    (hparsed : MockBackend.ParseStackReference be s w = (Outcome.ret (ref, none), w1)) :
    ∃ w2, MockBackend.ParseStackReference be (str ref) w1 = (Outcome.ret (ref, none), w2) := by
  have hcall : ∀ t v, MockBackend.ParseStackReference be t v = f t v := by
    intro t v
    simp only [MockBackend.ParseStackReference, hset v]
  rw [hcall] at hparsed
  rw [hcall]
  exact hlaw s w ref w1 hparsed

/-- C4, amended, at the backend whose hook takes every non-empty string as the string
form of a reference: `"org/proj/dev"` round-trips. -/
theorem parse_round_trip_of_hook_round_trip_witness :
    MockBackend.ParseStackReference (parsingBackend : Ptr Unit (MockBackend Plain Unit))
        "org/proj/dev" () = (Outcome.ret (Ref.named "org/proj/dev", none), ()) ∧
      ∃ w2, MockBackend.ParseStackReference (parsingBackend : Ptr Unit (MockBackend Plain Unit))
        (refString (Ref.named "org/proj/dev")) () =
          (Outcome.ret (Ref.named "org/proj/dev", none), w2) :=
  have hparsed :
      MockBackend.ParseStackReference (parsingBackend : Ptr Unit (MockBackend Plain Unit))
        "org/proj/dev" () = (Outcome.ret (Ref.named "org/proj/dev", none), ()) := by
    simp [MockBackend.ParseStackReference, parsingBackend, parseNonEmpty]
  ⟨hparsed,
    @parse_round_trip_of_hook_round_trip Plain Unit refString parsingBackend parseNonEmpty
      (fun _ => rfl)
      (by
        intro s w ref w1 h
        refine ⟨w1, ?_⟩
        unfold parseNonEmpty at h ⊢
        by_cases hs : s = ""
        · simp [hs] at h
        · simp only [hs, if_false, Prod.mk.injEq, Outcome.ret.injEq, and_true] at h
          subst h
          simp [refString, hs])
      "org/proj/dev" () (Ref.named "org/proj/dev") () hparsed⟩

/-- C5 fails at a backend with a one-shot hook, one that unsets itself when it is called:
the first `ParseStackReference("dev")` returns the reference `"dev"`, the second one,
made in the state the first one left, panics; and after the first call the
`ParseStackReferenceF` field of the backend is nil where it was set before. -/
theorem parse_differs_and_changes_a_field_with_one_shot_hook :
    (MockBackend.ParseStackReference oneShotParser "dev" true).1 =
        Outcome.ret (Ref.named "dev", none) ∧
      (MockBackend.ParseStackReference oneShotParser "dev"
          (MockBackend.ParseStackReference oneShotParser "dev" true).2).1 =
        Outcome.panic "not implemented" ∧
      (MockBackend.ParseStackReference oneShotParser "dev"
          (MockBackend.ParseStackReference oneShotParser "dev" true).2).1 ≠
        (MockBackend.ParseStackReference oneShotParser "dev" true).1 ∧
      oneShotParser (MockBackend.ParseStackReference oneShotParser "dev" true).2 ≠
        oneShotParser true := by
  refine ⟨rfl, rfl, ?_, ?_⟩
  · simp [MockBackend.ParseStackReference, oneShotParser, parseOneShot, notImplemented]
  · intro h
    have hfield := congrArg MockBackend.ParseStackReferenceF h
    simp [MockBackend.ParseStackReference, oneShotParser, parseOneShot] at hfield

/-- C5, amended: for every backend `be` and string `s`, two calls
`be.ParseStackReference(s)` produce the same outcome (the same reference, the same
error, or both panic) and the call leaves every field of `be` unchanged, exactly when
the `ParseStackReferenceF` hook is unset, or it leaves the fields of `be` unchanged and
answers a second call on `s` as it answered the first. -/
theorem parse_repeatable_iff_hook_repeatable {T : Types} {σ : Type}
    (be : Ptr σ (MockBackend T σ)) (s : String) (w : σ) :
    ((MockBackend.ParseStackReference be s (MockBackend.ParseStackReference be s w).2).1 =
          (MockBackend.ParseStackReference be s w).1 ∧
        be (MockBackend.ParseStackReference be s w).2 = be w) ↔
      ∀ f, (be w).ParseStackReferenceF = some f →
        (f s (f s w).2).1 = (f s w).1 ∧ be (f s w).2 = be w := by
  cases hf : (be w).ParseStackReferenceF with
  | none =>
    have hcall : MockBackend.ParseStackReference be s w = notImplemented w := by
      simp only [MockBackend.ParseStackReference, hf]
    constructor
    · intro _ f hset
      cases hset
    · intro _
      have hstate : (MockBackend.ParseStackReference be s w).2 = w := by
        rw [hcall]
        rfl
      rw [hstate]
      exact ⟨rfl, rfl⟩
  | some g =>
    have hcall : MockBackend.ParseStackReference be s w = g s w := by
      simp only [MockBackend.ParseStackReference, hf]
    have hagain : be (g s w).2 = be w →
        MockBackend.ParseStackReference be s (g s w).2 = g s (g s w).2 := by
      intro hbe
      have hf2 : (be (g s w).2).ParseStackReferenceF = some g := by rw [hbe, hf]
      simp only [MockBackend.ParseStackReference, hf2]
    rw [hcall]
    constructor
    · rintro ⟨hsame, hbe⟩ f hset
      cases hset
      refine ⟨?_, hbe⟩
      rw [← hagain hbe]
      exact hsame
    · intro h
      obtain ⟨hsame, hbe⟩ := h g rfl
      refine ⟨?_, hbe⟩
      rw [hagain hbe]
      exact hsame

/-- C5, amended, at a backend whose field is read from the state and whose hook counts
its calls: the call moves the counter from 3 to 4, a second call returns the same
reference, and the fields of the backend are as before. -/
theorem parse_repeatable_iff_hook_repeatable_witness :
    (MockBackend.ParseStackReference countingParser "dev" (true, 3)).2 = (true, 4) ∧
      (MockBackend.ParseStackReference countingParser "dev"
          (MockBackend.ParseStackReference countingParser "dev" (true, 3)).2).1 =
        (MockBackend.ParseStackReference countingParser "dev" (true, 3)).1 ∧
      countingParser (MockBackend.ParseStackReference countingParser "dev" (true, 3)).2 =
        countingParser (true, 3) :=
  ⟨rfl, (parse_repeatable_iff_hook_repeatable countingParser "dev" (true, 3)).mpr (by
    intro f hf
    have hfe : f = parseCounting := (Option.some.inj hf).symm
    subst hfe
    exact ⟨rfl, rfl⟩)⟩

/-! ### Stacks and their backend (C6, C7) -/

/-- C6 fails at a backend with a one-shot `GetStackF` hook, one that unsets itself when
it is called: `GetStack` returns the stack, and after the call the `GetStackF` field of
the backend is nil where it was set before. -/
theorem getStack_changes_a_field_with_one_shot_hook :
    MockBackend.GetStack oneShotBackend () (Ref.named "dev") true =
        (Outcome.ret (7, none), false) ∧
      (oneShotBackend true).GetStackF = some getStackOnce ∧
      (oneShotBackend
        (MockBackend.GetStack oneShotBackend () (Ref.named "dev") true).2).GetStackF = none ∧
      oneShotBackend (MockBackend.GetStack oneShotBackend () (Ref.named "dev") true).2 ≠
        oneShotBackend true := by
  refine ⟨rfl, rfl, rfl, ?_⟩
  intro h
  have hfield := congrArg MockBackend.GetStackF h
  simp [MockBackend.GetStack, oneShotBackend, getStackOnce] at hfield

/-- C6, amended: for every backend `be`, context and stack reference, `be.GetStack`
does not itself invoke the `CreateStackF` hook: a mock that differs from `be` only in
its `CreateStackF` field (any hook, or unset), called in the same program state, has
the same outcome and effect.  And the call leaves every field of `be` unchanged exactly
when the `GetStackF` hook is unset or leaves the fields of `be` unchanged. -/
theorem getStack_never_creates {T : Types} {σ : Type}
    (be : Ptr σ (MockBackend T σ)) (ctx : T.Context) (stackRef : T.StackReference) (w : σ) :
    (∀ create :
        Ptr σ (Option (T.Context → T.StackReference → T.Any → Go σ (T.Stack × GoError T))),
        MockBackend.GetStack (fun v => { be v with CreateStackF := create v }) ctx stackRef w =
          MockBackend.GetStack be ctx stackRef w) ∧
      (be (MockBackend.GetStack be ctx stackRef w).2 = be w ↔
        ∀ f, (be w).GetStackF = some f → be (f ctx stackRef w).2 = be w) := by
  constructor
  · intro create
    simp only [MockBackend.GetStack]
  · cases hf : (be w).GetStackF with
    | none =>
      have hcall : MockBackend.GetStack be ctx stackRef w = notImplemented w := by
        simp only [MockBackend.GetStack, hf]
      rw [hcall]
      constructor
      · intro _ f hset
        cases hset
      · intro _
        rfl
    | some g =>
      have hcall : MockBackend.GetStack be ctx stackRef w = g ctx stackRef w := by
        simp only [MockBackend.GetStack, hf]
      rw [hcall]
      constructor
      · intro hbe f hset
        cases hset
        exact hbe
      · intro h
        exact h g rfl

/-- C6, amended, at the one-shot backend of the counterexample: setting `CreateStackF`
to a hook that panics does not change what `GetStack` does, the hook is not called.
And at a backend whose field is read from the state and whose `GetStackF` hook counts
its calls: the call moves the counter from 0 to 1 and the fields of the backend are as
before. -/
theorem getStack_never_creates_witness :
    MockBackend.GetStack
        (fun v => { oneShotBackend v with CreateStackF := some createPanics })
        () (Ref.named "dev") true = (Outcome.ret (7, none), false) ∧
      (MockBackend.GetStack countingLookup () (Ref.named "dev") (true, 0)).2 = (true, 1) ∧
      countingLookup (MockBackend.GetStack countingLookup () (Ref.named "dev") (true, 0)).2 =
        countingLookup (true, 0) :=
  ⟨((getStack_never_creates oneShotBackend () (Ref.named "dev") true).1
      (fun _ => some createPanics)).trans rfl,
    rfl,
    (getStack_never_creates countingLookup () (Ref.named "dev") (true, 0)).2.mpr (by
      intro f hf
      have hfe : f = getStackCounting := (Option.some.inj hf).symm
      subst hfe
      rfl)⟩

/-- C7 fails at a backend (at address 1) whose `GetStackF` hook returns a stack built as
`&MockStack{}`: `GetStack` returns that stack without error, and its `Backend()` panics
with `"not implemented"` instead of returning the backend. -/
theorem stack_backend_panics_for_bare_stack :
    MockBackend.GetStack (lookupBackend : Ptr Unit (MockBackend Plain Unit))
        () (Ref.named "dev") () = (Outcome.ret (7, none), ()) ∧
      MockStack.Backend (bareStacks 7) () = (Outcome.panic "not implemented", ()) ∧
      MockStack.Backend (bareStacks 7) () ≠ (Outcome.ret 1, ()) := by
  refine ⟨rfl, rfl, ?_⟩
  simp [MockStack.Backend, bareStacks, emptyStack, notImplemented]

/-- C7, amended: for every backend `be`, `be.GetStack` returns a stack `s` without error
exactly when the `GetStackF` hook is set and returns `s` without error, and
`be.CreateStack` returns `s` without error exactly when the `CreateStackF` hook is set
and returns `s` without error; and when `s` is a `MockStack`, `s.Backend()` returns
`be` itself exactly when the `BackendF` hook of `s` is set and returns `be`. -/
theorem stack_backend_is_what_backendF_returns {T : Types} {σ : Type}
    (be : Ptr σ (MockBackend T σ)) (self : T.Backend)
    (stackAt : T.Stack → Ptr σ (MockStack T σ))
    (ctx : T.Context) (stackRef : T.StackReference) (opts : T.Any)
    (w : σ) (s : T.Stack) (w1 : σ) :
    (MockBackend.GetStack be ctx stackRef w = (Outcome.ret (s, none), w1) ↔
        ∃ f, (be w).GetStackF = some f ∧ f ctx stackRef w = (Outcome.ret (s, none), w1)) ∧
      (MockBackend.CreateStack be ctx stackRef opts w = (Outcome.ret (s, none), w1) ↔
        ∃ f, (be w).CreateStackF = some f ∧
          f ctx stackRef opts w = (Outcome.ret (s, none), w1)) ∧
      ∀ w2, MockStack.Backend (stackAt s) w1 = (Outcome.ret self, w2) ↔
        ∃ g, (stackAt s w1).BackendF = some g ∧ g w1 = (Outcome.ret self, w2) := by
  refine ⟨?_, ?_, ?_⟩
  · cases hf : (be w).GetStackF with
    | none =>
      have hcall : MockBackend.GetStack be ctx stackRef w = notImplemented w := by
        simp only [MockBackend.GetStack, hf]
      rw [hcall]
      constructor
      · intro h
        simp [notImplemented] at h
      · rintro ⟨f, hset, _⟩
        cases hset
    | some g =>
      have hcall : MockBackend.GetStack be ctx stackRef w = g ctx stackRef w := by
        simp only [MockBackend.GetStack, hf]
      rw [hcall]
      constructor
      · intro h
        exact ⟨g, rfl, h⟩
      · rintro ⟨f, hset, h⟩
        cases hset
        exact h
  · cases hf : (be w).CreateStackF with
    | none =>
      have hcall : MockBackend.CreateStack be ctx stackRef opts w = notImplemented w := by
        simp only [MockBackend.CreateStack, hf]
      rw [hcall]
      constructor
      · intro h
        simp [notImplemented] at h
      · rintro ⟨f, hset, _⟩
        cases hset
    | some g =>
      have hcall : MockBackend.CreateStack be ctx stackRef opts w = g ctx stackRef opts w := by
        simp only [MockBackend.CreateStack, hf]
      rw [hcall]
      constructor
      · intro h
        exact ⟨g, rfl, h⟩
      · rintro ⟨f, hset, h⟩
        cases hset
        exact h
  · intro w2
    cases hg : (stackAt s w1).BackendF with
    | none =>
      have hcall : MockStack.Backend (stackAt s) w1 = notImplemented w1 := by
        simp only [MockStack.Backend, hg]
      rw [hcall]
      constructor
      · intro h
        simp [notImplemented] at h
      · rintro ⟨g, hset, _⟩
        cases hset
    | some g0 =>
      have hcall : MockStack.Backend (stackAt s) w1 = g0 w1 := by
        simp only [MockStack.Backend, hg]
      rw [hcall]
      constructor
      · intro h
        exact ⟨g0, rfl, h⟩
      · rintro ⟨g, hset, h⟩
        cases hset
        exact h

/-- C7, amended, at a backend (at address 1) whose `GetStackF` hook returns the stack at
address 7 and whose `CreateStackF` hook returns the stack at address 9, both stacks
with `BackendF` set to return that backend: `GetStack` returns stack 7, `CreateStack`
returns stack 9, and `Backend()` of either stack returns address 1. -/
theorem stack_backend_is_what_backendF_returns_witness :
    MockBackend.GetStack (directoryBackend : Ptr Unit (MockBackend Plain Unit))
        () (Ref.named "dev") () = (Outcome.ret (7, none), ()) ∧
      MockBackend.CreateStack (directoryBackend : Ptr Unit (MockBackend Plain Unit))
        () (Ref.named "dev") () () = (Outcome.ret (9, none), ()) ∧
      MockStack.Backend (ownedStacks 7) () = (Outcome.ret 1, ()) ∧
      MockStack.Backend (ownedStacks 9) () = (Outcome.ret 1, ()) :=
  have h7 := stack_backend_is_what_backendF_returns
    (directoryBackend : Ptr Unit (MockBackend Plain Unit)) (1 : Nat) ownedStacks
    () (Ref.named "dev") () () 7 ()
  have h9 := stack_backend_is_what_backendF_returns
    (directoryBackend : Ptr Unit (MockBackend Plain Unit)) (1 : Nat) ownedStacks
    () (Ref.named "dev") () () 9 ()
  ⟨h7.1.mpr ⟨getStackSeven, rfl, rfl⟩,
    h9.2.1.mpr ⟨createStackNine, rfl, rfl⟩,
    (h7.2.2 ()).mpr ⟨fun w => (Outcome.ret 1, w), rfl, rfl⟩,
    (h9.2.2 ()).mpr ⟨fun w => (Outcome.ret 1, w), rfl, rfl⟩⟩

end PulumiBackend
